import Mathlib

/-!
Verification of the hotkey scheduling core of this repository
(Source/Core/DolphinQt2/HotkeyScheduler.cpp).

The scheduler is embedded shallowly:

* the set of hotkey ids referenced by the scheduler becomes the inductive
  type HotkeyID (the source reads them from the HotkeyManager enum; the
  contiguous slot ranges HK_LOAD_STATE_SLOT_1 + i and friends are modelled
  as constructors carrying the loop index i);
* the asynchronous command sink (Qt signal emissions) together with the
  one-way external calls made by the loop body becomes the inductive type
  Emitted; one tick produces a list of Emitted values in program order;
* the configuration store written by the loop (Config::*, SConfig) and the
  function-local static counters become the structure SchedState threaded
  through each tick; C++ int fields are modelled as Int (the frame-step
  statics, whose guards keep them non-negative, as Nat) and the
  double/float arithmetic on m_EmulationSpeed and fl_speed is modelled
  exactly over the rationals;
* the external queries made at the top of the loop (hotkeys enabled,
  Core::GetState, Core::IsRunningAndStarted, bluetooth passthrough,
  debugging, bWii, g_renderer) become the structure Env, fixed for a tick;
* the boolean result of HotkeyManagerEmu::IsPressed for each hotkey on a
  given tick becomes a function HotkeyID to Bool.
-/

/-- Hotkey identifiers referenced by HotkeyScheduler.cpp.  The source uses
the HotkeyManager enum (declared outside this file set); the scheduler only
ever compares ids, so the enum is modelled as an inductive type.  The slot
hotkeys HK_LOAD_STATE_SLOT_1 + i, HK_SAVE_STATE_SLOT_1 + i,
HK_LOAD_LAST_STATE_1 + i and HK_SELECT_STATE_SLOT_1 + i (contiguous enum
ranges in the source) carry the loop offset i. -/
inductive HotkeyID where
  | HK_OPEN
  | HK_EJECT_DISC
  | HK_CHANGE_DISC
  | HK_FULLSCREEN
  | HK_REFRESH_LIST
  | HK_PLAY_PAUSE
  | HK_STOP
  | HK_RESET
  | HK_FRAME_ADVANCE
  | HK_FRAME_ADVANCE_INCREASE_SPEED
  | HK_FRAME_ADVANCE_DECREASE_SPEED
  | HK_FRAME_ADVANCE_RESET_SPEED
  | HK_SCREENSHOT
  | HK_EXIT
  | HK_START_RECORDING
  | HK_EXPORT_RECORDING
  | HK_READ_ONLY_MODE
  | HK_TRIGGER_SYNC_BUTTON
  | HK_STEP
  | HK_STEP_OVER
  | HK_STEP_OUT
  | HK_SKIP
  | HK_SHOW_PC
  | HK_SET_PC
  | HK_BP_TOGGLE
  | HK_BP_ADD
  | HK_WIIMOTE1_CONNECT
  | HK_WIIMOTE2_CONNECT
  | HK_WIIMOTE3_CONNECT
  | HK_WIIMOTE4_CONNECT
  | HK_BALANCEBOARD_CONNECT
  | HK_VOLUME_DOWN
  | HK_VOLUME_UP
  | HK_VOLUME_TOGGLE_MUTE
  | HK_INCREASE_IR
  | HK_DECREASE_IR
  | HK_TOGGLE_CROP
  | HK_TOGGLE_AR
  | HK_TOGGLE_EFBCOPIES
  | HK_TOGGLE_XFBCOPIES
  | HK_TOGGLE_IMMEDIATE_XFB
  | HK_TOGGLE_FOG
  | HK_TOGGLE_DUMPTEXTURES
  | HK_TOGGLE_TEXTURES
  | HK_TOGGLE_THROTTLE
  | HK_DECREASE_EMULATION_SPEED
  | HK_INCREASE_EMULATION_SPEED
  | HK_SAVE_STATE_SLOT_SELECTED
  | HK_LOAD_STATE_SLOT_SELECTED
  | HK_TOGGLE_STEREO_SBS
  | HK_TOGGLE_STEREO_TAB
  | HK_TOGGLE_STEREO_ANAGLYPH
  | HK_TOGGLE_STEREO_3DVISION
  | HK_DECREASE_DEPTH
  | HK_INCREASE_DEPTH
  | HK_DECREASE_CONVERGENCE
  | HK_INCREASE_CONVERGENCE
  | HK_FREELOOK_DECREASE_SPEED
  | HK_FREELOOK_INCREASE_SPEED
  | HK_FREELOOK_RESET_SPEED
  | HK_FREELOOK_UP
  | HK_FREELOOK_DOWN
  | HK_FREELOOK_LEFT
  | HK_FREELOOK_RIGHT
  | HK_FREELOOK_ZOOM_IN
  | HK_FREELOOK_ZOOM_OUT
  | HK_FREELOOK_RESET
  | HK_SAVE_FIRST_STATE
  | HK_UNDO_LOAD_STATE
  | HK_UNDO_SAVE_STATE
  | HK_LOAD_STATE_SLOT (i : Nat)
  | HK_SAVE_STATE_SLOT (i : Nat)
  | HK_LOAD_LAST_STATE (i : Nat)
  | HK_SELECT_STATE_SLOT (i : Nat)
deriving BEq, Repr

/-- On-screen-display messages passed to g_renderer by the loop body. -/
inductive OSDMessage where
  | VolumeChanged
  | IRChanged
  | ARToggled
  | EFBCopyToggled
  | XFBChanged
  | FogToggled
  | SpeedChanged
deriving DecidableEq, Repr

/-- The stereoscopy mode enum (StereoMode), as used by the scheduler. -/
inductive StereoMode where
  | Off
  | SBS
  | TAB
  | Anaglyph
  | Nvidia3DVision
deriving DecidableEq, Repr

/-- Modelled from the spec: the host lifecycle enum (Core::State, declared
outside this file set).  The scheduler compares against Uninitialized,
Paused and Stopping; the spec describes the host as runnable, stopped or
tearing down, so the remaining running/starting values are also listed. -/
inductive CoreState where
  | Uninitialized
  | Paused
  | Starting
  | Running
  | Stopping
deriving DecidableEq, Repr

/-- Everything the loop body sends outward on one tick, in program order:
the Qt signal emissions (the typed command sink of the spec) plus the
one-way external calls (Core::DoFrameStep, g_controller_interface
input refresh, bluetooth sync-button update, Settings volume calls,
Core::SetIsThrottlerTempDisabled is modelled as scheduler state,
VertexShaderManager freelook calls, renderer OSD messages). -/
inductive Emitted where
  | Open
  | EjectDisc
  | ChangeDisc
  | FullScreenHotkey
  | RefreshGameListHotkey
  | TogglePauseHotkey
  | StopHotkey
  | ResetHotkey
  | ScreenShotHotkey
  | ExitHotkey
  | StartRecording
  | ExportRecording
  | ToggleReadOnlyMode
  | ConnectWiiRemote (id : Int)
  | StateSaveSlotHotkey
  | StateLoadSlotHotkey
  | StateLoadSlot (n : Nat)
  | StateSaveSlot (n : Nat)
  | StateLoadLastSaved (n : Nat)
  | SetStateSlotHotkey (n : Nat)
  | StateSaveOldest
  | StateLoadUndo
  | StateSaveUndo
  | Step
  | StepOver
  | StepOut
  | Skip
  | ShowPC
  | SetPC
  | ToggleBreakpoint
  | AddBreakpoint
  | DoFrameStep
  | UpdateInput
  | UpdateSyncButtonState (b : Bool)
  | DecreaseVolume (n : Int)
  | IncreaseVolume (n : Int)
  | ToggleMuteVolume
  | ShowOSDMessage (m : OSDMessage)
  | TranslateView (x y z : Rat)
  | ResetView
deriving DecidableEq, Repr

/-- Note on Emitted.SetPC.  Modelled from the spec: the command sink lists
one variant per emitted command name, including a set-pc variant distinct
from the skip variant; the signal declarations (HotkeyScheduler.h) are
outside this file set.  The source .cpp itself never emits this variant
(see CheckDebuggingHotkeys below). -/
def setPCVariantNote : Emitted := Emitted.SetPC

/-- The function-local static state of HandleFrameskipHotkeys.  In the
source these are C++ ints plus a bool; every guard keeps the three
counters non-negative (the only decrement, on the delay setting, is
clamped with max(.., 0), which coincides with truncated subtraction),
so they are modelled as Nat. -/
structure FrameStepState where
  frame_step_count : Nat
  frame_step_delay : Nat
  frame_step_delay_count : Nat
  frame_step_hold : Bool
deriving DecidableEq, Repr

/-- constexpr const char* DUBOIS_ALGORITHM_SHADER = "dubois"; -/
def DUBOIS_ALGORITHM_SHADER : String := "dubois"

/-- Modelled from the spec: the savestate slot count State::NUM_STATES
(declared in Core/State.h, outside this file set); the spec fixes N = 10. -/
def NUM_STATES : Nat := 10

/-- The sentinel EFB_SCALE_AUTO_INTEGRAL from the video configuration
header (outside this file set, value 0 there); no claim depends on its
value, it only gates the internal-resolution decrease. -/
def EFB_SCALE_AUTO_INTEGRAL : Int := 0

/-- The mutable state written by one loop iteration: the configuration
store fields the scheduler writes (Config::GFX_*, SConfig fields,
field names kept from the source; GFX_ASPECT_MODE stands for the aspect
enum field whose source name ends with the letters that Lean reserves
here) plus the function-local statics (frame-step counters, freelook
speed) and the throttle flag passed to Core::SetIsThrottlerTempDisabled.
The aspect enum is stored as its integer value (the source computes
(int(x) + 1) & 3, modelled as (x + 1) % 4 on Nat). -/
structure SchedState where
  m_EmulationSpeed : Rat
  GFX_STEREO_MODE : StereoMode
  GFX_ENHANCE_POST_SHADER : String
  GFX_STEREO_DEPTH : Int
  GFX_STEREO_CONVERGENCE : Int
  GFX_EFB_SCALE : Int
  GFX_CROP : Bool
  GFX_ASPECT_MODE : Nat
  GFX_HACK_SKIP_EFB_COPY_TO_RAM : Bool
  GFX_HACK_SKIP_XFB_COPY_TO_RAM : Bool
  GFX_HACK_IMMEDIATE_XFB : Bool
  GFX_DISABLE_FOG : Bool
  GFX_DUMP_TEXTURES : Bool
  GFX_HIRES_TEXTURES : Bool
  isThrottlerTempDisabled : Bool
  frameStep : FrameStepState
  fl_speed : Rat
deriving DecidableEq, Repr

/-- The external queries the loop makes on a tick, fixed for that tick:
HotkeyManagerEmu::IsEnabled, Core::GetState, Core::IsRunningAndStarted,
SConfig m_bt_passthrough_enabled / bEnableDebugging / bWii, whether the
IOS bluetooth device lookup succeeds, and whether g_renderer is alive. -/
structure Env where
  enabled : Bool
  coreState : CoreState
  isRunningAndStarted : Bool
  m_bt_passthrough_enabled : Bool
  btDeviceAttached : Bool
  bEnableDebugging : Bool
  bWii : Bool
  g_renderer : Bool
deriving DecidableEq, Repr

/-- The tick input where exactly one hotkey is pressed. -/
def only (k : HotkeyID) : HotkeyID → Bool := fun h => h == k

/-- HandleFrameskipHotkeys (HotkeyScheduler.cpp lines 66-127): the four
early-returning ifs become an if-chain; the body under the held
HK_FRAME_ADVANCE is the four-step sequence on the static counters, with
Core::DoFrameStep recorded as an emission. -/
def HandleFrameskipHotkeys (p : HotkeyID → Bool) (s : FrameStepState) :
    FrameStepState × List Emitted :=
  if p HotkeyID.HK_FRAME_ADVANCE_INCREASE_SPEED then
    ({ s with frame_step_delay := min (s.frame_step_delay + 1) 60 }, [])
  else if p HotkeyID.HK_FRAME_ADVANCE_DECREASE_SPEED then
    ({ s with frame_step_delay := max (s.frame_step_delay - 1) 0 }, [])
  else if p HotkeyID.HK_FRAME_ADVANCE_RESET_SPEED then
    ({ s with frame_step_delay := 1 }, [])
  else if p HotkeyID.HK_FRAME_ADVANCE then
    let s1 :=
      if s.frame_step_delay_count < s.frame_step_delay ∧ s.frame_step_hold = true then
        { s with frame_step_delay_count := s.frame_step_delay_count + 1 }
      else s
    let r2 :=
      if (s1.frame_step_count = 0 ∨ s1.frame_step_count = 30) ∧ s1.frame_step_hold = false then
        ({ s1 with frame_step_hold := true }, [Emitted.DoFrameStep])
      else (s1, [])
    let s2 := r2.1
    let s3 :=
      if s2.frame_step_count < 30 then
        { s2 with frame_step_count := s2.frame_step_count + 1, frame_step_hold := false }
      else s2
    let s4 :=
      if s3.frame_step_count = 30 ∧ s3.frame_step_hold = true ∧
          s3.frame_step_delay ≤ s3.frame_step_delay_count then
        { s3 with frame_step_hold := false, frame_step_delay_count := 0 }
      else s3
    (s4, r2.2)
  else if s.frame_step_count > 0 then
    ({ s with frame_step_count := 0, frame_step_hold := false,
              frame_step_delay_count := 0 }, [])
  else (s, [])

/-- One tick of the frame-step machine with the step action held and the
three delay-adjust actions not pressed. -/
def faTick (s : FrameStepState) : FrameStepState × List Emitted :=
  HandleFrameskipHotkeys (only HotkeyID.HK_FRAME_ADVANCE) s

/-- The machine state before the (n+1)-st held tick, starting from the
initial frame-step state with delay setting d. -/
def faState (d : Nat) : Nat → FrameStepState
  | 0 => ⟨0, d, 0, false⟩
  | n + 1 => (faTick (faState d n)).1

/-- Whether a step command (Core::DoFrameStep) is emitted on held tick n
(0-based). -/
def faEmits (d n : Nat) : Bool := !(faTick (faState d n)).2.isEmpty

/-- Number of step commands emitted during the first n held ticks. -/
def faCount (d : Nat) : Nat → Nat
  | 0 => 0
  | n + 1 => faCount d n + (if faEmits d n then 1 else 0)

/-- The emulation-speed decrease (HotkeyScheduler.cpp lines 329-330):
speed = current - 0.1; snap to 1.0 when speed <= 0 or 0.95 <= speed <= 1.05. -/
def decreaseEmulationSpeed (v : Rat) : Rat :=
  let speed := v - 0.1
  if speed ≤ 0 ∨ (speed ≥ 0.95 ∧ speed ≤ 1.05) then 1.0 else speed

/-- The emulation-speed increase (HotkeyScheduler.cpp lines 338-339):
speed = current + 0.1; snap to 1.0 when 0.95 <= speed <= 1.05. -/
def increaseEmulationSpeed (v : Rat) : Rat :=
  let speed := v + 0.1
  if speed ≥ 0.95 ∧ speed ≤ 1.05 then 1.0 else speed

/-- HotkeyScheduler::CheckDebuggingHotkeys (lines 474-499).  Note that the
source emits Skip() for HK_SET_PC (lines 491-492). -/
def CheckDebuggingHotkeys (p : HotkeyID → Bool) : List Emitted :=
  (if p HotkeyID.HK_STEP then [Emitted.Step] else []) ++
  (if p HotkeyID.HK_STEP_OVER then [Emitted.StepOver] else []) ++
  (if p HotkeyID.HK_STEP_OUT then [Emitted.StepOut] else []) ++
  (if p HotkeyID.HK_SKIP then [Emitted.Skip] else []) ++
  (if p HotkeyID.HK_SHOW_PC then [Emitted.ShowPC] else []) ++
  (if p HotkeyID.HK_SET_PC then [Emitted.Skip] else []) ++
  (if p HotkeyID.HK_BP_TOGGLE then [Emitted.ToggleBreakpoint] else []) ++
  (if p HotkeyID.HK_BP_ADD then [Emitted.AddBreakpoint] else [])

/-- The Wii remote / balance board connect block (lines 225-241 body):
wiimote_id starts at -1, each pressed connect hotkey overwrites it in
order, and a single ConnectWiiRemote is emitted when it ended above -1. -/
def wiimoteConnectBlock (p : HotkeyID → Bool) : List Emitted :=
  let wiimote_id : Int := -1
  let wiimote_id := if p HotkeyID.HK_WIIMOTE1_CONNECT then 0 else wiimote_id
  let wiimote_id := if p HotkeyID.HK_WIIMOTE2_CONNECT then 1 else wiimote_id
  let wiimote_id := if p HotkeyID.HK_WIIMOTE3_CONNECT then 2 else wiimote_id
  let wiimote_id := if p HotkeyID.HK_WIIMOTE4_CONNECT then 3 else wiimote_id
  let wiimote_id := if p HotkeyID.HK_BALANCEBOARD_CONNECT then 4 else wiimote_id
  if wiimote_id > -1 then [Emitted.ConnectWiiRemote wiimote_id] else []

/-- The stereoscopy toggle section (lines 351-395): the SBS/TAB pair
shares one handler whose already-active check compares against SBS only;
the anaglyph and 3D Vision handlers follow, each re-reading the mode. -/
def stereoSection (p : HotkeyID → Bool) (s : SchedState) : SchedState :=
  let s :=
    if p HotkeyID.HK_TOGGLE_STEREO_SBS || p HotkeyID.HK_TOGGLE_STEREO_TAB then
      if s.GFX_STEREO_MODE ≠ StereoMode.SBS then
        let s :=
          if s.GFX_ENHANCE_POST_SHADER = DUBOIS_ALGORITHM_SHADER then
            { s with GFX_ENHANCE_POST_SHADER := "" }
          else s
        { s with GFX_STEREO_MODE :=
            (if p HotkeyID.HK_TOGGLE_STEREO_SBS then StereoMode.SBS else StereoMode.TAB) }
      else
        { s with GFX_STEREO_MODE := StereoMode.Off }
    else s
  let s :=
    if p HotkeyID.HK_TOGGLE_STEREO_ANAGLYPH then
      if s.GFX_STEREO_MODE ≠ StereoMode.Anaglyph then
        { s with GFX_STEREO_MODE := StereoMode.Anaglyph,
                 GFX_ENHANCE_POST_SHADER := DUBOIS_ALGORITHM_SHADER }
      else
        { s with GFX_STEREO_MODE := StereoMode.Off, GFX_ENHANCE_POST_SHADER := "" }
    else s
  let s :=
    if p HotkeyID.HK_TOGGLE_STEREO_3DVISION then
      if s.GFX_STEREO_MODE ≠ StereoMode.Nvidia3DVision then
        let s :=
          if s.GFX_ENHANCE_POST_SHADER = DUBOIS_ALGORITHM_SHADER then
            { s with GFX_ENHANCE_POST_SHADER := "" }
          else s
        { s with GFX_STEREO_MODE := StereoMode.Nvidia3DVision }
      else
        { s with GFX_STEREO_MODE := StereoMode.Off }
    else s
  s

/-- g_renderer->ShowOSDMessage, guarded by the g_renderer null check
(the show_msg lambda, lines 243-246). -/
def show_msg (env : Env) (m : OSDMessage) : List Emitted :=
  if env.g_renderer then [Emitted.ShowOSDMessage m] else []

/-- Emissions of the one-shot hotkeys before the frameskip call
(lines 148-182): open, disc, fullscreen, game list, pause, stop, reset. -/
def emitsBeforeFrameskip (p : HotkeyID → Bool) : List Emitted :=
  (if p HotkeyID.HK_OPEN then [Emitted.Open] else []) ++
  (if p HotkeyID.HK_EJECT_DISC then [Emitted.EjectDisc] else []) ++
  (if p HotkeyID.HK_CHANGE_DISC then [Emitted.ChangeDisc] else []) ++
  (if p HotkeyID.HK_FULLSCREEN then [Emitted.FullScreenHotkey] else []) ++
  (if p HotkeyID.HK_REFRESH_LIST then [Emitted.RefreshGameListHotkey] else []) ++
  (if p HotkeyID.HK_PLAY_PAUSE then [Emitted.TogglePauseHotkey] else []) ++
  (if p HotkeyID.HK_STOP then [Emitted.StopHotkey] else []) ++
  (if p HotkeyID.HK_RESET then [Emitted.ResetHotkey] else [])

/-- Emissions between the frameskip call and the bluetooth block
(lines 187-205): screenshot, exit, recording, read-only mode. -/
def emitsAfterFrameskip (p : HotkeyID → Bool) : List Emitted :=
  (if p HotkeyID.HK_SCREENSHOT then [Emitted.ScreenShotHotkey] else []) ++
  (if p HotkeyID.HK_EXIT then [Emitted.ExitHotkey] else []) ++
  (if p HotkeyID.HK_START_RECORDING then [Emitted.StartRecording] else []) ++
  (if p HotkeyID.HK_EXPORT_RECORDING then [Emitted.ExportRecording] else []) ++
  (if p HotkeyID.HK_READ_ONLY_MODE then [Emitted.ToggleReadOnlyMode] else [])

/-- The bluetooth passthrough sync-button block (lines 208-216): when
passthrough is enabled and the IOS device lookup succeeds, the held
state of HK_TRIGGER_SYNC_BUTTON is forwarded every tick. -/
def btSection (env : Env) (p : HotkeyID → Bool) : List Emitted :=
  if env.m_bt_passthrough_enabled then
    (if env.btDeviceAttached then
      [Emitted.UpdateSyncButtonState (p HotkeyID.HK_TRIGGER_SYNC_BUTTON)]
    else [])
  else []

/-- The volume block (lines 249-265). -/
def volumeSection (env : Env) (p : HotkeyID → Bool) : List Emitted :=
  (if p HotkeyID.HK_VOLUME_DOWN then
    show_msg env OSDMessage.VolumeChanged ++ [Emitted.DecreaseVolume 3]
  else []) ++
  (if p HotkeyID.HK_VOLUME_UP then
    show_msg env OSDMessage.VolumeChanged ++ [Emitted.IncreaseVolume 3]
  else []) ++
  (if p HotkeyID.HK_VOLUME_TOGGLE_MUTE then
    show_msg env OSDMessage.VolumeChanged ++ [Emitted.ToggleMuteVolume]
  else [])

/-- OSD messages produced by the graphics block (lines 267-315) in
program order; the configuration writes themselves are in
graphicsStateA and graphicsStateB. -/
def graphicsEmits (env : Env) (p : HotkeyID → Bool) : List Emitted :=
  (if p HotkeyID.HK_INCREASE_IR then show_msg env OSDMessage.IRChanged else []) ++
  (if p HotkeyID.HK_DECREASE_IR then show_msg env OSDMessage.IRChanged else []) ++
  (if p HotkeyID.HK_TOGGLE_AR then show_msg env OSDMessage.ARToggled else []) ++
  (if p HotkeyID.HK_TOGGLE_EFBCOPIES then show_msg env OSDMessage.EFBCopyToggled else []) ++
  (if p HotkeyID.HK_TOGGLE_XFBCOPIES then show_msg env OSDMessage.XFBChanged else []) ++
  (if p HotkeyID.HK_TOGGLE_IMMEDIATE_XFB then show_msg env OSDMessage.XFBChanged else []) ++
  (if p HotkeyID.HK_TOGGLE_FOG then show_msg env OSDMessage.FogToggled else [])

/-- Configuration writes of the graphics block, first half (lines
268-290): internal resolution (GFX_EFB_SCALE is read once, before both
direction checks), crop, aspect mode. -/
def graphicsStateA (p : HotkeyID → Bool) (s : SchedState) : SchedState :=
  let efb_scale := s.GFX_EFB_SCALE
  let s :=
    if p HotkeyID.HK_INCREASE_IR then { s with GFX_EFB_SCALE := efb_scale + 1 } else s
  let s :=
    if p HotkeyID.HK_DECREASE_IR then
      (if efb_scale > EFB_SCALE_AUTO_INTEGRAL then
        { s with GFX_EFB_SCALE := efb_scale - 1 }
      else s)
    else s
  let s := if p HotkeyID.HK_TOGGLE_CROP then { s with GFX_CROP := !s.GFX_CROP } else s
  let s :=
    if p HotkeyID.HK_TOGGLE_AR then
      { s with GFX_ASPECT_MODE := (s.GFX_ASPECT_MODE + 1) % 4 }
    else s
  s

/-- Configuration writes of the graphics block, second half (lines
291-321): EFB/XFB copy hacks, immediate XFB, fog, texture dumping and
custom textures. -/
def graphicsStateB (p : HotkeyID → Bool) (s : SchedState) : SchedState :=
  let s :=
    if p HotkeyID.HK_TOGGLE_EFBCOPIES then
      { s with GFX_HACK_SKIP_EFB_COPY_TO_RAM := !s.GFX_HACK_SKIP_EFB_COPY_TO_RAM }
    else s
  let s :=
    if p HotkeyID.HK_TOGGLE_XFBCOPIES then
      { s with GFX_HACK_SKIP_XFB_COPY_TO_RAM := !s.GFX_HACK_SKIP_XFB_COPY_TO_RAM }
    else s
  let s :=
    if p HotkeyID.HK_TOGGLE_IMMEDIATE_XFB then
      { s with GFX_HACK_IMMEDIATE_XFB := !s.GFX_HACK_IMMEDIATE_XFB }
    else s
  let s :=
    if p HotkeyID.HK_TOGGLE_FOG then { s with GFX_DISABLE_FOG := !s.GFX_DISABLE_FOG } else s
  let s :=
    if p HotkeyID.HK_TOGGLE_DUMPTEXTURES then
      { s with GFX_DUMP_TEXTURES := !s.GFX_DUMP_TEXTURES }
    else s
  let s :=
    if p HotkeyID.HK_TOGGLE_TEXTURES then
      { s with GFX_HIRES_TEXTURES := !s.GFX_HIRES_TEXTURES }
    else s
  s

/-- The throttle write and the emulation-speed adjustments (lines
323-341): the throttle flag is forwarded unconditionally every tick and
the speed is re-read before each of the two adjustments. -/
def speedSection (p : HotkeyID → Bool) (s : SchedState) : SchedState :=
  let s := { s with isThrottlerTempDisabled := p HotkeyID.HK_TOGGLE_THROTTLE }
  let s :=
    if p HotkeyID.HK_DECREASE_EMULATION_SPEED then
      { s with m_EmulationSpeed := decreaseEmulationSpeed s.m_EmulationSpeed }
    else s
  let s :=
    if p HotkeyID.HK_INCREASE_EMULATION_SPEED then
      { s with m_EmulationSpeed := increaseEmulationSpeed s.m_EmulationSpeed }
    else s
  s

/-- OSD messages of the emulation-speed adjustments (lines 327 and 336). -/
def speedEmits (env : Env) (p : HotkeyID → Bool) : List Emitted :=
  (if p HotkeyID.HK_DECREASE_EMULATION_SPEED then show_msg env OSDMessage.SpeedChanged else []) ++
  (if p HotkeyID.HK_INCREASE_EMULATION_SPEED then show_msg env OSDMessage.SpeedChanged else [])

/-- The selected-slot save/load emissions (lines 344-348). -/
def slotSelectedEmits (p : HotkeyID → Bool) : List Emitted :=
  (if p HotkeyID.HK_SAVE_STATE_SLOT_SELECTED then [Emitted.StateSaveSlotHotkey] else []) ++
  (if p HotkeyID.HK_LOAD_STATE_SLOT_SELECTED then [Emitted.StateLoadSlotHotkey] else [])

/-- The guarded main block of the loop body (lines 148-395), run when the
core state is not Stopping and the core is running and started.  The
configuration writes and the emissions are independent streams in the
source; each stream is assembled here in its source order.  The extra
100 ms sleep after the fullscreen toggle and the
HotkeyManagerEmu::GetStatus sampling call have no modelled effect. -/
def mainBlock (env : Env) (p : HotkeyID → Bool) (s : SchedState) :
    SchedState × List Emitted :=
  let rF := HandleFrameskipHotkeys p s.frameStep
  let s1 : SchedState := { s with frameStep := rF.1 }
  let s2 := graphicsStateB p (graphicsStateA p s1)
  let s3 := speedSection p s2
  let s4 := stereoSection p s3
  (s4,
    emitsBeforeFrameskip p ++ rF.2 ++ emitsAfterFrameskip p ++
    btSection env p ++
    (if env.bEnableDebugging then CheckDebuggingHotkeys p else []) ++
    (if env.bWii then wiimoteConnectBlock p else []) ++
    volumeSection env p ++ graphicsEmits env p ++ speedEmits env p ++
    slotSelectedEmits p)

/-- One slot iteration of the savestate loop (lines 450-460). -/
def slotIteration (p : HotkeyID → Bool) (i : Nat) : List Emitted :=
  (if p (HotkeyID.HK_LOAD_STATE_SLOT i) then [Emitted.StateLoadSlot (i + 1)] else []) ++
  (if p (HotkeyID.HK_SAVE_STATE_SLOT i) then [Emitted.StateSaveSlot (i + 1)] else []) ++
  (if p (HotkeyID.HK_LOAD_LAST_STATE i) then [Emitted.StateLoadLastSaved (i + 1)] else []) ++
  (if p (HotkeyID.HK_SELECT_STATE_SLOT i) then [Emitted.SetStateSlotHotkey (i + 1)] else [])

/-- The savestate loop (lines 448-461): for i in [0, NUM_STATES). -/
def savestateLoop (p : HotkeyID → Bool) : List Emitted :=
  (List.range NUM_STATES).flatMap (slotIteration p)

/-- The tail of the loop body (lines 398-471), which runs on every enabled
tick that reaches it: stereo depth and convergence adjustment, the
freelook static speed and view calls, the savestate loop, and the
oldest/undo state hotkeys.  Note the source computes
std::min(stereo_depth - 1, 0) for the depth decrease. -/
def bottomBlock (p : HotkeyID → Bool) (s : SchedState) : SchedState × List Emitted :=
  let stereo_depth := s.GFX_STEREO_DEPTH
  let s :=
    if p HotkeyID.HK_DECREASE_DEPTH then
      { s with GFX_STEREO_DEPTH := min (stereo_depth - 1) 0 }
    else s
  let s :=
    if p HotkeyID.HK_INCREASE_DEPTH then
      { s with GFX_STEREO_DEPTH := min (stereo_depth + 1) 100 }
    else s
  let stereo_convergence := s.GFX_STEREO_CONVERGENCE
  let s :=
    if p HotkeyID.HK_DECREASE_CONVERGENCE then
      { s with GFX_STEREO_CONVERGENCE := max (stereo_convergence - 5) 0 }
    else s
  let s :=
    if p HotkeyID.HK_INCREASE_CONVERGENCE then
      { s with GFX_STEREO_CONVERGENCE := min (stereo_convergence + 5) 500 }
    else s
  let s :=
    if p HotkeyID.HK_FREELOOK_DECREASE_SPEED then
      { s with fl_speed := s.fl_speed / 1.1 }
    else s
  let s :=
    if p HotkeyID.HK_FREELOOK_INCREASE_SPEED then
      { s with fl_speed := s.fl_speed * 1.1 }
    else s
  let s :=
    if p HotkeyID.HK_FREELOOK_RESET_SPEED then { s with fl_speed := 1.0 } else s
  let es : List Emitted := []
  let es := es ++
    (if p HotkeyID.HK_FREELOOK_UP then [Emitted.TranslateView 0 0 (-s.fl_speed)] else [])
  let es := es ++
    (if p HotkeyID.HK_FREELOOK_DOWN then [Emitted.TranslateView 0 0 s.fl_speed] else [])
  let es := es ++
    (if p HotkeyID.HK_FREELOOK_LEFT then [Emitted.TranslateView s.fl_speed 0 0] else [])
  let es := es ++
    (if p HotkeyID.HK_FREELOOK_RIGHT then [Emitted.TranslateView (-s.fl_speed) 0 0] else [])
  let es := es ++
    (if p HotkeyID.HK_FREELOOK_ZOOM_IN then [Emitted.TranslateView 0 s.fl_speed 0] else [])
  let es := es ++
    (if p HotkeyID.HK_FREELOOK_ZOOM_OUT then [Emitted.TranslateView 0 (-s.fl_speed) 0] else [])
  let es := es ++ (if p HotkeyID.HK_FREELOOK_RESET then [Emitted.ResetView] else [])
  let es := es ++ savestateLoop p
  let es := es ++ (if p HotkeyID.HK_SAVE_FIRST_STATE then [Emitted.StateSaveOldest] else [])
  let es := es ++ (if p HotkeyID.HK_UNDO_LOAD_STATE then [Emitted.StateLoadUndo] else [])
  let es := es ++ (if p HotkeyID.HK_UNDO_SAVE_STATE then [Emitted.StateSaveUndo] else [])
  (s, es)

/-- One iteration of HotkeyScheduler::Run (lines 131-471), after the
sleep: the enabled gate, the input refresh for an uninitialized or paused
core, the Stopping guard around the main block with its inner
IsRunningAndStarted continue, and the unguarded tail. -/
def runTick (env : Env) (p : HotkeyID → Bool) (s : SchedState) :
    SchedState × List Emitted :=
  if env.enabled = false then (s, [])
  else
    let upd : List Emitted :=
      if env.coreState = CoreState.Uninitialized ∨ env.coreState = CoreState.Paused then
        [Emitted.UpdateInput]
      else []
    if env.coreState ≠ CoreState.Stopping then
      if env.isRunningAndStarted = false then (s, upd)
      else
        let r1 := mainBlock env p s
        let r2 := bottomBlock p r1.1
        (r2.1, upd ++ r1.2 ++ r2.2)
    else
      let r2 := bottomBlock p s
      (r2.1, upd ++ r2.2)

/-- A concrete scheduler state matching the statics at process start
(frame_step_delay = 1, fl_speed = 1.0) with neutral configuration. -/
def initState : SchedState :=
  { m_EmulationSpeed := 1
    GFX_STEREO_MODE := StereoMode.Off
    GFX_ENHANCE_POST_SHADER := ""
    GFX_STEREO_DEPTH := 0
    GFX_STEREO_CONVERGENCE := 20
    GFX_EFB_SCALE := 1
    GFX_CROP := false
    GFX_ASPECT_MODE := 0
    GFX_HACK_SKIP_EFB_COPY_TO_RAM := false
    GFX_HACK_SKIP_XFB_COPY_TO_RAM := false
    GFX_HACK_IMMEDIATE_XFB := false
    GFX_DISABLE_FOG := false
    GFX_DUMP_TEXTURES := false
    GFX_HIRES_TEXTURES := false
    isThrottlerTempDisabled := false
    frameStep := ⟨0, 1, 0, false⟩
    fl_speed := 1 }

/-- An environment for an ordinary running tick: hotkeys enabled, core
running and started, no bluetooth passthrough, no debugger, GameCube
mode, renderer alive. -/
def runningEnv : Env :=
  { enabled := true
    coreState := CoreState.Running
    isRunningAndStarted := true
    m_bt_passthrough_enabled := false
    btDeviceAttached := false
    bEnableDebugging := false
    bWii := false
    g_renderer := true }

/-- The running environment while the core is tearing down. -/
def stoppingEnv : Env := { runningEnv with coreState := CoreState.Stopping }

/-- The action that selects each member of the stereo toggle group
(spec section 4.6); the Off value is never a member and is mapped
arbitrarily. -/
def memberHotkey : StereoMode → HotkeyID
  | StereoMode.Off => HotkeyID.HK_TOGGLE_STEREO_SBS
  | StereoMode.SBS => HotkeyID.HK_TOGGLE_STEREO_SBS
  | StereoMode.TAB => HotkeyID.HK_TOGGLE_STEREO_TAB
  | StereoMode.Anaglyph => HotkeyID.HK_TOGGLE_STEREO_ANAGLYPH
  | StereoMode.Nvidia3DVision => HotkeyID.HK_TOGGLE_STEREO_3DVISION

/-- What firing a member's own action does when the group already sits at
that member, as the source has it: SBS and 3D Vision go to Off leaving
the shader untouched, anaglyph goes to Off and clears the shader, while
TAB (sharing the SBS already-active check) re-selects TAB and only
clears a dubois shader if present. -/
def stereoToggleAtMember (m : StereoMode) (s : SchedState) : SchedState :=
  match m with
  | StereoMode.Off => s
  | StereoMode.SBS => { s with GFX_STEREO_MODE := StereoMode.Off }
  | StereoMode.Anaglyph =>
      { s with GFX_STEREO_MODE := StereoMode.Off, GFX_ENHANCE_POST_SHADER := "" }
  | StereoMode.Nvidia3DVision => { s with GFX_STEREO_MODE := StereoMode.Off }
  | StereoMode.TAB =>
      if s.GFX_ENHANCE_POST_SHADER = DUBOIS_ALGORITHM_SHADER then
        { s with GFX_ENHANCE_POST_SHADER := "", GFX_STEREO_MODE := StereoMode.TAB }
      else { s with GFX_STEREO_MODE := StereoMode.TAB }

/-- Closed form of the frame-step machine state before held tick n
(0-based) when the step action is held from the initial state: the
warm-up counts up to 30, after which the machine cycles with period
frame_step_delay + 1. -/
def faPhase (d n : Nat) : FrameStepState :=
  if n < 30 then ⟨n, d, 0, false⟩
  else if (n - 30) % (d + 1) = 0 then ⟨30, d, 0, false⟩
  else ⟨30, d, (n - 30) % (d + 1) - 1, true⟩

/-- Evaluation lemmas for the single-pressed-hotkey input on the literal
pairs the proofs below inspect (the derived equality test reduces by
computation on each pair). -/
@[simp] theorem only_fa_fa :
    only HotkeyID.HK_FRAME_ADVANCE HotkeyID.HK_FRAME_ADVANCE = true := rfl

@[simp] theorem only_fa_inc :
    only HotkeyID.HK_FRAME_ADVANCE HotkeyID.HK_FRAME_ADVANCE_INCREASE_SPEED = false := rfl

@[simp] theorem only_fa_dec :
    only HotkeyID.HK_FRAME_ADVANCE HotkeyID.HK_FRAME_ADVANCE_DECREASE_SPEED = false := rfl

@[simp] theorem only_fa_reset :
    only HotkeyID.HK_FRAME_ADVANCE HotkeyID.HK_FRAME_ADVANCE_RESET_SPEED = false := rfl

@[simp] theorem only_sbs_sbs :
    only HotkeyID.HK_TOGGLE_STEREO_SBS HotkeyID.HK_TOGGLE_STEREO_SBS = true := rfl

@[simp] theorem only_sbs_tab :
    only HotkeyID.HK_TOGGLE_STEREO_SBS HotkeyID.HK_TOGGLE_STEREO_TAB = false := rfl

@[simp] theorem only_sbs_ana :
    only HotkeyID.HK_TOGGLE_STEREO_SBS HotkeyID.HK_TOGGLE_STEREO_ANAGLYPH = false := rfl

@[simp] theorem only_sbs_3dv :
    only HotkeyID.HK_TOGGLE_STEREO_SBS HotkeyID.HK_TOGGLE_STEREO_3DVISION = false := rfl

@[simp] theorem only_tab_sbs :
    only HotkeyID.HK_TOGGLE_STEREO_TAB HotkeyID.HK_TOGGLE_STEREO_SBS = false := rfl

@[simp] theorem only_tab_tab :
    only HotkeyID.HK_TOGGLE_STEREO_TAB HotkeyID.HK_TOGGLE_STEREO_TAB = true := rfl

@[simp] theorem only_tab_ana :
    only HotkeyID.HK_TOGGLE_STEREO_TAB HotkeyID.HK_TOGGLE_STEREO_ANAGLYPH = false := rfl

@[simp] theorem only_tab_3dv :
    only HotkeyID.HK_TOGGLE_STEREO_TAB HotkeyID.HK_TOGGLE_STEREO_3DVISION = false := rfl

@[simp] theorem only_ana_sbs :
    only HotkeyID.HK_TOGGLE_STEREO_ANAGLYPH HotkeyID.HK_TOGGLE_STEREO_SBS = false := rfl

@[simp] theorem only_ana_tab :
    only HotkeyID.HK_TOGGLE_STEREO_ANAGLYPH HotkeyID.HK_TOGGLE_STEREO_TAB = false := rfl

@[simp] theorem only_ana_ana :
    only HotkeyID.HK_TOGGLE_STEREO_ANAGLYPH HotkeyID.HK_TOGGLE_STEREO_ANAGLYPH = true := rfl

@[simp] theorem only_ana_3dv :
    only HotkeyID.HK_TOGGLE_STEREO_ANAGLYPH HotkeyID.HK_TOGGLE_STEREO_3DVISION = false := rfl

@[simp] theorem only_3dv_sbs :
    only HotkeyID.HK_TOGGLE_STEREO_3DVISION HotkeyID.HK_TOGGLE_STEREO_SBS = false := rfl

@[simp] theorem only_3dv_tab :
    only HotkeyID.HK_TOGGLE_STEREO_3DVISION HotkeyID.HK_TOGGLE_STEREO_TAB = false := rfl

@[simp] theorem only_3dv_ana :
    only HotkeyID.HK_TOGGLE_STEREO_3DVISION HotkeyID.HK_TOGGLE_STEREO_ANAGLYPH = false := rfl

@[simp] theorem only_3dv_3dv :
    only HotkeyID.HK_TOGGLE_STEREO_3DVISION HotkeyID.HK_TOGGLE_STEREO_3DVISION = true := rfl
/-- C2 counterexample: firing the emulation-speed decrease once from
current speed 1.0 does not yield 1.0: the raw result 0.9 lies outside
the snap band [0.95, 1.05] and is positive, so no snap applies. -/
theorem speed_decrease_snap_counterexample :
    ((runTick runningEnv (only HotkeyID.HK_DECREASE_EMULATION_SPEED)
        initState).1).m_EmulationSpeed ≠ 1 := by
  show decreaseEmulationSpeed 1 ≠ 1
  unfold decreaseEmulationSpeed
  norm_num

/-- C2 amended: with current = 1.0, step = 0.1, snap band [0.95, 1.05]
and snap target 1.0, firing the decrease action once yields exactly 0.9:
the post-adjustment value falls outside the band and above the
degenerate bound, so the raw arithmetic result stands. -/
theorem speed_decrease_from_one :
    ((runTick runningEnv (only HotkeyID.HK_DECREASE_EMULATION_SPEED)
        initState).1).m_EmulationSpeed = 0.9 := by
  show decreaseEmulationSpeed 1 = 0.9
  unfold decreaseEmulationSpeed
  norm_num

/-- C3: for every current emulation-speed value v, firing decrease
yields 1.0 when v - 0.1 <= 0 or 0.95 <= v - 0.1 <= 1.05 and v - 0.1
otherwise, and firing increase yields 1.0 when
0.95 <= v + 0.1 <= 1.05 and v + 0.1 otherwise. -/
theorem emulationSpeed_snap_rule (v : Rat) :
    decreaseEmulationSpeed v =
      (if v - 0.1 ≤ 0 ∨ (0.95 ≤ v - 0.1 ∧ v - 0.1 ≤ 1.05) then 1 else v - 0.1) ∧
    increaseEmulationSpeed v =
      (if 0.95 ≤ v + 0.1 ∧ v + 0.1 ≤ 1.05 then 1 else v + 0.1) := by
  constructor <;>
    simp only [decreaseEmulationSpeed, increaseEmulationSpeed, ge_iff_le] <;>
    norm_num

/-- C4: evaluation of the stereo-depth decrease at its failing inputs.
The source computes std::min(stereo_depth - 1, 0), so decreasing from
depth 50 jumps straight to 0 instead of 49, and decreasing from 0 leaves
the [0, 100] range at -1; the sibling adjustments (convergence decrease
uses std::max(.. - 5, 0)) show the intended clamp. -/
theorem depth_decrease_code_eval :
    ((runTick runningEnv (only HotkeyID.HK_DECREASE_DEPTH)
        { initState with GFX_STEREO_DEPTH := 50 }).1).GFX_STEREO_DEPTH = 0 ∧
    ((runTick runningEnv (only HotkeyID.HK_DECREASE_DEPTH)
        { initState with GFX_STEREO_DEPTH := 0 }).1).GFX_STEREO_DEPTH = -1 := by
  decide

/-- C5 counterexample: the top-and-bottom member violates the toggle-off
rule: with the group already at TAB, firing the TAB action leaves the
group at TAB (the shared already-active check compares against SBS
only), not at Off. -/
theorem stereo_tab_toggle_counterexample :
    (stereoSection (only HotkeyID.HK_TOGGLE_STEREO_TAB)
        { initState with GFX_STEREO_MODE := StereoMode.TAB }).GFX_STEREO_MODE =
      StereoMode.TAB ∧
    StereoMode.TAB ≠ StereoMode.Off := by
  decide

/-- C5 amended: firing a stereo member's own action while the group sits
at that member behaves per member: SBS goes to Off with the shader
untouched, anaglyph goes to Off and clears the shader (undoing its side
effect exactly once), 3D Vision goes to Off with the shader untouched,
and TAB re-selects TAB (clearing a dubois shader if present) because it
shares the SBS already-active check. -/
theorem stereo_toggle_at_member (s : SchedState) (m : StereoMode)
    (hm : m ≠ StereoMode.Off) (hcur : s.GFX_STEREO_MODE = m) :
    stereoSection (only (memberHotkey m)) s = stereoToggleAtMember m s := by
  cases m with
  | Off => exact absurd rfl hm
  | SBS => simp [stereoSection, memberHotkey, stereoToggleAtMember, hcur]
  | TAB =>
      by_cases hsh : s.GFX_ENHANCE_POST_SHADER = DUBOIS_ALGORITHM_SHADER <;>
        simp [stereoSection, memberHotkey, stereoToggleAtMember, hcur, hsh]
  | Anaglyph => simp [stereoSection, memberHotkey, stereoToggleAtMember, hcur]
  | Nvidia3DVision => simp [stereoSection, memberHotkey, stereoToggleAtMember, hcur]

/-- C5 witness: the amended theorem applied at the anaglyph member with
the shader side effect present. -/
theorem stereo_toggle_at_member_witness :
    stereoSection (only (memberHotkey StereoMode.Anaglyph))
        { initState with GFX_STEREO_MODE := StereoMode.Anaglyph,
                         GFX_ENHANCE_POST_SHADER := DUBOIS_ALGORITHM_SHADER } =
      stereoToggleAtMember StereoMode.Anaglyph
        { initState with GFX_STEREO_MODE := StereoMode.Anaglyph,
                         GFX_ENHANCE_POST_SHADER := DUBOIS_ALGORITHM_SHADER } :=
  stereo_toggle_at_member
    { initState with GFX_STEREO_MODE := StereoMode.Anaglyph,
                     GFX_ENHANCE_POST_SHADER := DUBOIS_ALGORITHM_SHADER }
    StereoMode.Anaglyph (by decide) rfl

/-- C6 counterexample: on a tick where the core state is Stopping,
action processing does occur: a load-slot command is emitted and the
stereo-convergence configuration is mutated, because the source places
lines 398-471 outside the Stopping guard. -/
theorem stopping_tick_claim_counterexample :
    (runTick stoppingEnv (only (HotkeyID.HK_LOAD_STATE_SLOT 2)) initState).2 =
      [Emitted.StateLoadSlot 3] ∧
    ((runTick stoppingEnv (only HotkeyID.HK_DECREASE_CONVERGENCE)
        { initState with GFX_STEREO_CONVERGENCE := 50 }).1).GFX_STEREO_CONVERGENCE =
      45 := by
  decide

/-- C6 amended: on an enabled tick where the core state is Stopping, the
guarded main block (open through the stereo mode toggles) is skipped
entirely, but the tail of the loop body still runs: the tick behaves
exactly like the bottom block alone (depth/convergence, freelook,
savestate slots, oldest/undo), which can emit commands and mutate
configuration; the loop itself keeps ticking until Stop() is called. -/
theorem stopping_tick_runs_tail (env : Env) (p : HotkeyID → Bool) (s : SchedState)
    (hen : env.enabled = true) (hst : env.coreState = CoreState.Stopping) :
    runTick env p s = bottomBlock p s := by
  rcases hb : bottomBlock p s with ⟨a, b⟩
  simp [runTick, hen, hst, hb]

/-- C6 witness: the amended theorem applied on a concrete Stopping tick. -/
theorem stopping_tick_runs_tail_witness :
    runTick stoppingEnv (only (HotkeyID.HK_LOAD_STATE_SLOT 0)) initState =
      bottomBlock (only (HotkeyID.HK_LOAD_STATE_SLOT 0)) initState :=
  stopping_tick_runs_tail stoppingEnv (only (HotkeyID.HK_LOAD_STATE_SLOT 0))
    initState rfl rfl

/-- C7: for every slot index i in [0, 10), a running tick on which only
the load-slot-i (respectively save-slot-i, load-last-saved-slot-i,
select-slot-i) action is asserted emits exactly the one corresponding
command, carrying the 1-based slot number i + 1, and mutates nothing. -/
theorem slot_hotkeys_emit (i : Nat) (h : i < 10) :
    runTick runningEnv (only (HotkeyID.HK_LOAD_STATE_SLOT i)) initState =
      (initState, [Emitted.StateLoadSlot (i + 1)]) ∧
    runTick runningEnv (only (HotkeyID.HK_SAVE_STATE_SLOT i)) initState =
      (initState, [Emitted.StateSaveSlot (i + 1)]) ∧
    runTick runningEnv (only (HotkeyID.HK_LOAD_LAST_STATE i)) initState =
      (initState, [Emitted.StateLoadLastSaved (i + 1)]) ∧
    runTick runningEnv (only (HotkeyID.HK_SELECT_STATE_SLOT i)) initState =
      (initState, [Emitted.SetStateSlotHotkey (i + 1)]) := by
  interval_cases i <;> exact (by decide)

/-- C7 witness: slot index 3, whose load command carries slot number 4. -/
theorem slot_hotkeys_emit_witness :
    3 < 10 ∧
    (runTick runningEnv (only (HotkeyID.HK_LOAD_STATE_SLOT 3)) initState =
        (initState, [Emitted.StateLoadSlot 4]) ∧
      runTick runningEnv (only (HotkeyID.HK_SAVE_STATE_SLOT 3)) initState =
        (initState, [Emitted.StateSaveSlot 4]) ∧
      runTick runningEnv (only (HotkeyID.HK_LOAD_LAST_STATE 3)) initState =
        (initState, [Emitted.StateLoadLastSaved 4]) ∧
      runTick runningEnv (only (HotkeyID.HK_SELECT_STATE_SLOT 3)) initState =
        (initState, [Emitted.SetStateSlotHotkey 4])) :=
  ⟨by decide, slot_hotkeys_emit 3 (by decide)⟩

/-- C8: on a running tick with debugging enabled and only the set-pc
hotkey asserted, the source emits the Skip command variant (lines
491-492 emit Skip() for HK_SET_PC), not the distinct SetPC variant the
command sink provides. -/
theorem setpc_emits_skip :
    (runTick { runningEnv with bEnableDebugging := true }
        (only HotkeyID.HK_SET_PC) initState).2 = [Emitted.Skip] ∧
    Emitted.Skip ≠ Emitted.SetPC := by
  decide

/-- C10: the Wii connect block emits at most one command per tick: it
emits nothing when no connect action is asserted, and otherwise a single
ConnectWiiRemote carrying the id of the highest-priority asserted action
(balance board id 4 over Wii Remote 4 id 3, over 2, 1, 0). -/
theorem wiimoteConnect_priority (p : HotkeyID → Bool) :
    wiimoteConnectBlock p =
      (if p HotkeyID.HK_BALANCEBOARD_CONNECT then [Emitted.ConnectWiiRemote 4]
      else if p HotkeyID.HK_WIIMOTE4_CONNECT then [Emitted.ConnectWiiRemote 3]
      else if p HotkeyID.HK_WIIMOTE3_CONNECT then [Emitted.ConnectWiiRemote 2]
      else if p HotkeyID.HK_WIIMOTE2_CONNECT then [Emitted.ConnectWiiRemote 1]
      else if p HotkeyID.HK_WIIMOTE1_CONNECT then [Emitted.ConnectWiiRemote 0]
      else []) := by
  unfold wiimoteConnectBlock
  cases h1 : p HotkeyID.HK_WIIMOTE1_CONNECT <;>
  cases h2 : p HotkeyID.HK_WIIMOTE2_CONNECT <;>
  cases h3 : p HotkeyID.HK_WIIMOTE3_CONNECT <;>
  cases h4 : p HotkeyID.HK_WIIMOTE4_CONNECT <;>
  cases h5 : p HotkeyID.HK_BALANCEBOARD_CONNECT <;>
  simp [h1, h2, h3, h4, h5]

/-- Successor of a number modulo m, phrased the way the cadence proof
consumes it. -/
theorem succ_mod (a m : Nat) (hm : 0 < m) :
    (a + 1) % m = if a % m + 1 = m then 0 else a % m + 1 := by
  conv_lhs => rw [← Nat.div_add_mod a m]
  have key : m * (a / m) + a % m + 1 = a % m + 1 + (a / m) * m := by ring
  rw [key, Nat.add_mul_mod_self_right]
  by_cases h : a % m + 1 = m
  · simp [h, Nat.mod_self]
  · have hlt : a % m + 1 < m := by
      have := Nat.mod_lt a hm
      omega
    simp [h, Nat.mod_eq_of_lt hlt]

/-- One held tick during the warm-up (frame_step_count below 30):
the counter advances, the fire gate stays clear, and a step command is
emitted exactly on the first tick. -/
theorem faTick_lt (c d : Nat) (h : c < 30) :
    faTick ⟨c, d, 0, false⟩ =
      (⟨c + 1, d, 0, false⟩, if c = 0 then [Emitted.DoFrameStep] else []) := by
  have h30 : c ≠ 30 := by omega
  by_cases hc : c = 0
  · subst hc
    simp [faTick, HandleFrameskipHotkeys]
  · simp [faTick, HandleFrameskipHotkeys, hc, h30, h]

/-- One held tick at the fire point (count 30, gate clear): a step
command is emitted; with delay setting 0 the gate clears again in the
same tick, otherwise the hold-wait phase begins. -/
theorem faTick_at30 (d : Nat) :
    faTick ⟨30, d, 0, false⟩ =
      ((if d = 0 then ⟨30, d, 0, false⟩ else ⟨30, d, 0, true⟩), [Emitted.DoFrameStep]) := by
  by_cases hd : d = 0
  · subst hd
    simp [faTick, HandleFrameskipHotkeys]
  · have hd2 : ¬ d ≤ 0 := by omega
    simp [faTick, HandleFrameskipHotkeys, hd, hd2]

/-- One held tick in the hold-wait phase: the delay counter advances
without emitting; reaching the delay setting clears the gate. -/
theorem faTick_holdwait (d k : Nat) (h : k < d) :
    faTick ⟨30, d, k, true⟩ =
      ((if k + 1 = d then ⟨30, d, 0, false⟩ else ⟨30, d, k + 1, true⟩), []) := by
  by_cases hk : k + 1 = d
  · simp [faTick, HandleFrameskipHotkeys, h, hk]
  · have hk2 : ¬ d ≤ k + 1 := by omega
    simp [faTick, HandleFrameskipHotkeys, h, hk, hk2]

/-- The frame-step machine follows the closed-form phase: 30 warm-up
ticks, then a cycle of period frame_step_delay + 1 at count 30. -/
theorem faState_eq_phase (d : Nat) : ∀ n, faState d n = faPhase d n := by
  intro n
  induction n with
  | zero => simp [faState, faPhase]
  | succ n ih =>
      have hstep : faState d (n + 1) = (faTick (faPhase d n)).1 := by
        rw [faState, ih]
      rw [hstep]
      rcases Nat.lt_or_ge n 30 with h1 | h1
      · have hph : faPhase d n = ⟨n, d, 0, false⟩ := by simp [faPhase, h1]
        rw [hph, faTick_lt n d h1]
        rcases Nat.lt_or_ge (n + 1) 30 with h2 | h2
        · simp [faPhase, h2]
        · have h3 : n + 1 = 30 := by omega
          simp [faPhase, h3]
      · have hpos : 0 < d + 1 := Nat.succ_pos d
        have hsub : n - 29 = (n - 30) + 1 := by omega
        rcases Nat.eq_zero_or_pos ((n - 30) % (d + 1)) with h2 | h2
        · have hph : faPhase d n = ⟨30, d, 0, false⟩ := by
            simp [faPhase, Nat.not_lt.mpr h1, h2]
          rw [hph, faTick_at30]
          have hnl : ¬ (n + 1 < 30) := by omega
          by_cases hd : d = 0
          · simp [faPhase, hd, hnl, Nat.mod_one]
          · have hnext : (n - 29) % (d + 1) = 1 := by
              rw [hsub, succ_mod _ _ hpos, h2]
              have : ¬ (0 + 1 = d + 1) := by omega
              simp [this]
            simp [faPhase, hd, hnext, hnl]
        · set r := (n - 30) % (d + 1) with hr
          have hrlt : r < d + 1 := Nat.mod_lt _ hpos
          have hd0 : d ≠ 0 := by
            intro hh
            rw [hh] at hrlt
            omega
          have hph : faPhase d n = ⟨30, d, r - 1, true⟩ := by
            have : ¬ (r = 0) := by omega
            simp [faPhase, Nat.not_lt.mpr h1, ← hr, this]
          have hklt : r - 1 < d := by omega
          rw [hph, faTick_holdwait d (r - 1) hklt]
          have hr1 : r - 1 + 1 = r := by omega
          rw [hr1]
          have hnl : ¬ (n + 1 < 30) := by omega
          by_cases hrd : r = d
          · have hnext : (n - 29) % (d + 1) = 0 := by
              rw [hsub, succ_mod _ _ hpos, ← hr]
              simp [hrd]
            simp [faPhase, hrd, hnext, hnl]
          · have hnext : (n - 29) % (d + 1) = r + 1 := by
              rw [hsub, succ_mod _ _ hpos, ← hr]
              have : ¬ (r + 1 = d + 1) := by omega
              simp [this]
            have : ¬ (r + 1 = 0) := by omega
            simp [faPhase, hrd, hnext, hnl, this]

/-- C1 amended: for every delay setting d in [0, 60], holding the step
action from the initial frame-step state emits a step command exactly on
held tick 0 and on the held ticks n with n >= 30 and d + 1 dividing
n - 30: one step on the first tick, a second after the fixed 30-tick
warm-up, and from then on one step every d + 1 ticks (not every
30 + d ticks). -/
theorem frame_step_cadence (d n : Nat) (hd : d ≤ 60) :
    faEmits d n = true ↔ (n = 0 ∨ (30 ≤ n ∧ (d + 1) ∣ (n - 30))) := by
  unfold faEmits
  rw [faState_eq_phase]
  have hpos : 0 < d + 1 := Nat.succ_pos d
  have hdvd : (d + 1) ∣ (n - 30) ↔ (n - 30) % (d + 1) = 0 :=
    Nat.dvd_iff_mod_eq_zero
  rcases Nat.lt_or_ge n 30 with h1 | h1
  · have hph : faPhase d n = ⟨n, d, 0, false⟩ := by simp [faPhase, h1]
    rw [hph, faTick_lt n d h1]
    by_cases hn : n = 0
    · simp [hn]
    · have hne : ¬ 30 ≤ n := by omega
      simp [hn, hne]
  · by_cases h2 : (n - 30) % (d + 1) = 0
    · have hph : faPhase d n = ⟨30, d, 0, false⟩ := by
        simp [faPhase, Nat.not_lt.mpr h1, h2]
      rw [hph, faTick_at30]
      simp [h1, hdvd, h2]
    · have hph : faPhase d n = ⟨30, d, (n - 30) % (d + 1) - 1, true⟩ := by
        simp [faPhase, Nat.not_lt.mpr h1, h2]
      have hd0 : d ≠ 0 := by
        intro hh
        rw [hh] at h2
        simp [Nat.mod_one] at h2
      have hklt : (n - 30) % (d + 1) - 1 < d := by
        have := Nat.mod_lt (n - 30) hpos
        have hz : (n - 30) % (d + 1) ≠ 0 := h2
        omega
      rw [hph, faTick_holdwait d _ hklt]
      simp [hdvd, h2]
      omega

/-- C1 witness: delay setting 1, held tick 30 (the second step). -/
theorem frame_step_cadence_witness :
    1 ≤ 60 ∧ faEmits 1 30 = true :=
  ⟨by decide, (frame_step_cadence 1 30 (by decide)).mpr (Or.inr ⟨by decide, ⟨0, rfl⟩⟩)⟩

/-- C1 counterexample: with delay setting 1 the claim predicts exactly
one step command per 31 held ticks, but the machine emits two step
commands among the first 31 held ticks, and emits on held ticks 30 and
32 (0-based), only two ticks apart. -/
theorem frame_step_claim_counterexample :
    faCount 1 31 = 2 ∧ faEmits 1 30 = true ∧ faEmits 1 32 = true := by
  decide
